import Mathlib

/-! # Smart Hair Advisor: formal model of the conversational core

A shallow embedding of `app/services/chatbot_response.py`,
`app/services/matcher.py` and `app/services/text_analysis.py`, with proofs
of the specification's claims about them.  Machine reals are modelled by
`ℚ` (the scores are small exact sums; Python float rounding differs only at
exact half-thousandths, which nothing here depends on), Python `None` /
string / list dictionary values by an explicit sum type, and Python
truthiness explicitly.  The image analyzer (`analysis.py`, an external
collaborator built on rembg/cv2) is modelled by its output: the optional
`hair_type_keywords` list it hands to the engine. -/

/-! ## Python-style dictionary values and `update_session` -/

/-- A value stored in a session dictionary: `None`, a string, or a list of
strings (the shapes `update_session` receives from the engine). -/
inductive PyVal where
  | none : PyVal
  | str : String → PyVal
  | list : List String → PyVal
deriving DecidableEq

/-- Python truthiness for the shapes above.  The guard of
`update_session`'s loop, `v is not None and v != [] and v != ""`, holds
exactly for the truthy values of these shapes. -/
def pyTruthy : PyVal → Bool
  | .none => false
  | .str s => s ≠ ""
  | .list l => l ≠ []

/-- One step of `update_session`'s merge loop (chatbot_response.py line
72-74): key `kv.1` is overwritten by `kv.2` only when the incoming value
is truthy. -/
def applyUpdate (acc : String → PyVal) (kv : String × PyVal) : String → PyVal :=
  fun k => if k = kv.1 ∧ pyTruthy kv.2 = true then kv.2 else acc k

/-- `update_session` (chatbot_response.py lines 65-78) as a pure merge of
the incoming partial dictionary `new_data` (a key-value list, in iteration
order) into the stored dictionary `existing`.  Session-expiry bookkeeping
is time-based and outside the model; an expired session merges into a
fresh empty dictionary, which the spec treats as a reset. -/
def update_session (existing : String → PyVal) (new_data : List (String × PyVal)) :
    String → PyVal :=
  new_data.foldl applyUpdate existing

/-- A whole conversation's worth of `update_session` merges, oldest first. -/
def update_session_seq (existing : String → PyVal) (updates : List (List (String × PyVal))) :
    String → PyVal :=
  updates.foldl update_session existing

/-! ## String helpers mirroring the Python primitives used -/

/-- Prefix test on character lists. -/
def isPrefixL : List Char → List Char → Bool
  | [], _ => true
  | _ :: _, [] => false
  | a :: as, b :: bs => a = b && isPrefixL as bs

/-- Contiguous-sublist test on character lists. -/
def isInfixL (needle : List Char) : List Char → Bool
  | [] => needle.isEmpty
  | c :: cs => isPrefixL needle (c :: cs) || isInfixL needle cs

/-- Python's substring operator `needle in hay` on strings. -/
def strIn (needle hay : String) : Bool := isInfixL needle.data hay.data

/-- Python's `str.lower` (ASCII case folding, which covers every string the
program manipulates). -/
def pyLower (s : String) : String := String.mk (s.data.map Char.toLower)

/-- ASCII whitespace, for Python's `str.strip`. -/
def isPySpace (c : Char) : Bool :=
  c = ' ' || c = '\t' || c = '\n' || c = '\r' || c = '\x0b' || c = '\x0c'

/-- Python's `str.strip`. -/
def pyStrip (s : String) : String :=
  String.mk (((s.data.dropWhile isPySpace).reverse.dropWhile isPySpace).reverse)

/-- Python's `" ".join`-style join with a separator. -/
def pyJoin (sep : String) : List String → String
  | [] => ""
  | [s] => s
  | s :: rest => s ++ sep ++ pyJoin sep rest

/-- The scan behind `list(dict.fromkeys(l))`: keep an element only when it
was not seen before. -/
def dedupFirstAux (seen : List String) : List String → List String
  | [] => []
  | x :: xs => if x ∈ seen then dedupFirstAux seen xs else x :: dedupFirstAux (x :: seen) xs

/-- Python's `list(dict.fromkeys(l))`: drop every later duplicate, keeping
the first occurrence of each element in order. -/
def dedupFirst (l : List String) : List String := dedupFirstAux [] l

/-! ## The catalog matcher (app/services/matcher.py) -/

/-- One row of the catalog (the Hackathon dataset): the product name and
the four descriptive tag columns the matcher reads.  Opaque routine-step
columns are passed through unchanged by the code and are not modelled. -/
structure CatalogEntry where
  product : String
  hairTypeTag : String
  hairTextureTag : String
  primaryConcernTag : String
  secondaryConcernTag : String
deriving DecidableEq

/-- The splitting loop of `tokenize` (matcher.py line 35):
`re.split(r"[,/]| and | or |;", value)` scanned left to right.  `acc`
holds the characters of the current piece, reversed. -/
def splitTraits : List Char → List Char → List String
  | [], acc => [String.mk acc.reverse]
  | ',' :: rest, acc => String.mk acc.reverse :: splitTraits rest []
  | '/' :: rest, acc => String.mk acc.reverse :: splitTraits rest []
  | ';' :: rest, acc => String.mk acc.reverse :: splitTraits rest []
  | ' ' :: 'a' :: 'n' :: 'd' :: ' ' :: rest, acc => String.mk acc.reverse :: splitTraits rest []
  | ' ' :: 'o' :: 'r' :: ' ' :: rest, acc => String.mk acc.reverse :: splitTraits rest []
  | c :: rest, acc => splitTraits rest (c :: acc)

/-- `tokenize` (matcher.py lines 31-35): the empty string (falsy) yields
`[]`, anything else is lower-cased and split on the separators. -/
def tokenize (value : String) : List String :=
  if value = "" then [] else splitTraits (pyLower value).data []

/-- `set(t.strip() for t in traits if t.strip())` (matcher.py lines 42-43). -/
def stripSet (traits : List String) : Finset String :=
  ((traits.map pyStrip).filter (fun t => t ≠ "")).toFinset

/-- `compute_similarity` (matcher.py lines 38-46): Jaccard similarity of
the stripped token sets, `0.0` when either raw list is empty or the union
is empty. -/
def compute_similarity (user_traits dataset_traits : List String) : ℚ :=
  if user_traits = [] ∨ dataset_traits = [] then 0
  else
    let user_set := stripSet user_traits
    let data_set := stripSet dataset_traits
    let inter := (user_set ∩ data_set).card
    let union := (user_set ∪ data_set).card
    if 0 < union then (inter : ℚ) / union else 0

/-- The engine's accumulated session profile (the session dictionary's
client-meaningful keys plus the two bookkeeping keys it carries:
`_last_asked`, and `_last_activity` modelled by the flag of its
presence — its actual value is a wall-clock time outside the model). -/
structure Profile where
  hair_type : List String := []
  hair_texture : Option String := Option.none
  primary_concern : Option String := Option.none
  secondary_concern : Option String := Option.none
  last_asked : Option (List String) := Option.none
  has_last_activity : Bool := false
deriving DecidableEq

/-- `str(user_data.get(key, ""))` for a scalar profile field: an absent
field reads as the empty string. -/
def optStr : Option String → String
  | Option.none => ""
  | some s => s

/-- Truthiness of a scalar profile field. -/
def truthyOpt : Option String → Bool
  | Option.none => false
  | some s => s ≠ ""

/-- matcher.py line 88-91: Jaccard similarity of the profile's hair-type
tokens against the tokenized `Hair Type` tag. -/
def hairTypeSim (p : Profile) (e : CatalogEntry) : ℚ :=
  compute_similarity p.hair_type (tokenize e.hairTypeTag)

/-- matcher.py line 92: `1.0` iff the profile's hair texture (empty when
absent) is a case-insensitive substring of the `Hair Texture` tag. -/
def textureInd (p : Profile) (e : CatalogEntry) : ℚ :=
  if strIn (pyLower (optStr p.hair_texture)) (pyLower e.hairTextureTag) then 1 else 0

/-- matcher.py line 93: the same indicator for the primary concern. -/
def primaryInd (p : Profile) (e : CatalogEntry) : ℚ :=
  if strIn (pyLower (optStr p.primary_concern)) (pyLower e.primaryConcernTag) then 1 else 0

/-- matcher.py line 94: the same indicator for the secondary concern. -/
def secondaryInd (p : Profile) (e : CatalogEntry) : ℚ :=
  if strIn (pyLower (optStr p.secondary_concern)) (pyLower e.secondaryConcernTag) then 1 else 0

/-- matcher.py line 96: the weighted total score of one catalog entry. -/
def rawScore (p : Profile) (e : CatalogEntry) : ℚ :=
  0.4 * hairTypeSim p e + 0.2 * textureInd p e + 0.25 * primaryInd p e + 0.15 * secondaryInd p e

/-- `float(round(x, 3))` (matcher.py line 102) over `ℚ`: round to the
nearest thousandth. -/
def roundq3 (q : ℚ) : ℚ := (round (1000 * q) : ℤ) / 1000

/-- One element of `match_user_profile`'s result list: the rounded
`match_score` together with the catalog row it was computed from.  `idx`
records the row's original catalog position (Python keeps rows in catalog
order inside `results`; the index makes the stable sort explicit). -/
structure ScoredEntry where
  match_score : ℚ
  idx : ℕ
  entry : CatalogEntry
deriving DecidableEq

/-- matcher.py lines 87-104: every catalog row scored, in catalog order. -/
def scoredResults (p : Profile) (catalog : List CatalogEntry) : List ScoredEntry :=
  catalog.enum.map (fun ie => { match_score := roundq3 (rawScore p ie.2), idx := ie.1, entry := ie.2 })

/-- The order produced by `sorted(results, key=lambda x: x["match_score"],
reverse=True)`: Python's sort is stable, so the output is exactly the list
sorted by descending score with the original position breaking ties. -/
def rankedBefore (a b : ScoredEntry) : Prop :=
  b.match_score < a.match_score ∨ (a.match_score = b.match_score ∧ a.idx ≤ b.idx)

instance : DecidableRel rankedBefore := fun a b => by
  unfold rankedBefore; exact instDecidableOr

instance : IsTotal ScoredEntry rankedBefore where
  total a b := by
    unfold rankedBefore
    rcases lt_trichotomy a.match_score b.match_score with h | h | h
    · exact Or.inr (Or.inl h)
    · rcases Nat.le_total a.idx b.idx with hi | hi
      · exact Or.inl (Or.inr ⟨h, hi⟩)
      · exact Or.inr (Or.inr ⟨h.symm, hi⟩)
    · exact Or.inl (Or.inl h)

instance : IsTrans ScoredEntry rankedBefore where
  trans a b c hab hbc := by
    unfold rankedBefore at *
    rcases hab with h1 | ⟨h1, h1i⟩
    · rcases hbc with h2 | ⟨h2, _⟩
      · exact Or.inl (h2.trans h1)
      · exact Or.inl (h2 ▸ h1)
    · rcases hbc with h2 | ⟨h2, h2i⟩
      · exact Or.inl (h1.symm ▸ h2)
      · exact Or.inr ⟨h1.trans h2, h1i.trans h2i⟩

/-- matcher.py line 106: the scored rows, stably sorted by descending
`match_score`. -/
def rankedResults (p : Profile) (catalog : List CatalogEntry) : List ScoredEntry :=
  (scoredResults p catalog).insertionSort rankedBefore

/-- `match_user_profile` (matcher.py lines 72-109) with the default
`top_n = 3`: the first three ranked rows that score above zero. -/
def match_user_profile (p : Profile) (catalog : List CatalogEntry) : List ScoredEntry :=
  ((rankedResults p catalog).take 3).filter (fun m => 0 < m.match_score)

/-! ## The text analyzer (app/services/text_analysis.py) -/

/-- `extract_hair_texture` (text_analysis.py lines 6-20). -/
def extract_hair_texture (text : String) : Option String :=
  let t := pyLower text
  if strIn "fine" t then some "Fine"
  else if strIn "medium" t then some "Medium"
  else if strIn "coarse" t then some "Coarse"
  else if strIn "thick" t then some "Coarse"
  else if strIn "thin" t then some "Fine"
  else if strIn "wavy" t then some "Medium"
  else Option.none

/-- `extract_hair_type_traits` (text_analysis.py lines 26-64): the
`hair_type_keywords` list built from the trait flags, in the source's
fixed order. -/
def extract_hair_type_keywords (text : String) : List String :=
  let t := pyLower text
  (if strIn "greasy roots" t || strIn "oily roots" t || strIn "scalp is oily" t
      || strIn "oily scalp" t then ["Greasy roots"] else []) ++
  (if strIn "split ends" t || strIn "ends are damaged" t || strIn "split hair" t
      then ["Prone to split ends"] else []) ++
  (if strIn "brittle" t || strIn "breaks easily" t then ["Brittle"] else []) ++
  (if strIn "strawy" t || strIn "frizzy" t || strIn "rough" t then ["Strawy"] else []) ++
  (if strIn "dry" t || strIn "dryness" t then ["Dry"] else []) ++
  (if strIn "damaged" t || strIn "damage" t then ["Damaged"] else []) ++
  (if strIn "colored" t || strIn "color-treated" t || strIn "dyed" t then ["Colored"] else []) ++
  (if strIn "bleached" t || strIn "bleach" t then ["Bleached"] else []) ++
  (if strIn "normal hair" t then ["Normal"] else []) ++
  (if strIn "dry tips" t || strIn "dry ends" t then ["Dry tips"] else [])

/-- Word characters for the regex `\b` boundary (ASCII, which covers every
concern key and all catalog/profile strings). -/
def isWordChar (c : Char) : Bool := c.isAlphanum || c = '_'

/-- Does `k` match at the head of `rest` with `\b` on both sides?  `prev`
is the character just before `rest`, if any; every concern key begins and
ends with a word character, so `\b` there means a non-word neighbour or
the text's edge. -/
def boundaryHere (k : List Char) (prev : Option Char) (rest : List Char) : Bool :=
  (match prev with | Option.none => true | some c => !isWordChar c) &&
  isPrefixL k rest &&
  (match rest.drop k.length with | [] => true | c :: _ => !isWordChar c)

/-- The scan of `re.search` over the text, remembering the previous
character for the left boundary. -/
def wordSearchAux (k : List Char) : Option Char → List Char → Bool
  | prev, [] => boundaryHere k prev []
  | prev, c :: cs => boundaryHere k prev (c :: cs) || wordSearchAux k (some c) cs

/-- `re.search(rf"\b{k}\b", text)` (text_analysis.py line 94) as a Bool. -/
def wordSearch (k : String) (text : String) : Bool :=
  wordSearchAux k.data Option.none text.data

/-- The `concern_map` dictionary (text_analysis.py lines 72-90), in
insertion order. -/
def concern_map : List (String × String) :=
  [("dry", "Dryness"), ("damage", "Damaged hair"), ("breakage", "Breakage"),
   ("frizz", "Frizzy hair"), ("shine", "Lack of shine"), ("volume", "Lack of volume"),
   ("color", "Color protection"), ("bleach", "Colored & Bleached"),
   ("dandruff", "Scalp care"), ("hair fall", "Hair fall"), ("split", "Split ends"),
   ("smooth", "Smoothness"), ("repair", "Repair"), ("moisture", "Moisturizing"),
   ("hydration", "Moisturizing"), ("oily", "Oily scalp"), ("greasy", "Oily scalp")]

/-- The result of `extract_concerns` (text_analysis.py lines 70-105). -/
structure Concerns where
  primary_concern : Option String
  secondary_concern : Option String
  all_detected : List String
deriving DecidableEq

/-- `extract_concerns`: the concern values whose keys occur as whole words,
in map order, deduplicated; the first is primary, the second secondary. -/
def extract_concerns (text : String) : Concerns :=
  let t := pyLower text
  let found := dedupFirst ((concern_map.filter (fun kv => wordSearch kv.1 t)).map (fun kv => kv.2))
  { primary_concern := found.head?,
    secondary_concern := found.get? 1,
    all_detected := found }

/-- The dictionary `analyze_text_input` returns (text_analysis.py lines
147-153).  It never contains an `is_clarification` key, so the engine's
`text_result.get("is_clarification")` is always `None`. -/
structure TextResult where
  hair_texture : Option String
  hair_type_keywords : List String
  primary_concern : Option String
  secondary_concern : Option String
  detected_concerns : List String
deriving DecidableEq

/-- `analyze_text_input` (text_analysis.py lines 111-155). -/
def analyze_text_input (message : String) : TextResult :=
  let text := pyStrip (pyLower message)
  let texture0 := extract_hair_texture text
  let keywords0 := extract_hair_type_keywords text
  let concerns := extract_concerns text
  let keywords1 :=
    if keywords0 = [] then
      (if strIn "dry" text || strIn "dryness" text || strIn "frizzy" text
          || strIn "rough" text then ["Dry"] else []) ++
      (if strIn "damaged" text || strIn "breakage" text || strIn "broken" text
          then ["Damaged"] else []) ++
      (if strIn "colored" text || strIn "color-treated" text || strIn "dyed" text
          || strIn "bleached" text then ["Colored & Bleached"] else [])
    else keywords0
  let texture1 :=
    match texture0 with
    | some tx => some tx
    | Option.none =>
      if strIn "fine" text || strIn "thin" text || strIn "delicate" text then some "Fine"
      else if strIn "medium" text || strIn "normal" text then some "Medium"
      else if strIn "coarse" text || strIn "thick" text || strIn "dense" text
          || strIn "wavy" text || strIn "curly" text then some "Coarse"
      else Option.none
  let keywords2 :=
    if concerns.all_detected.contains "Moisturizing" && !(keywords1.contains "Dry")
    then keywords1 ++ ["Dry"] else keywords1
  let detected1 :=
    if (strIn "color" text || strIn "bleach" text || strIn "dyed" text)
        && !(concerns.all_detected.contains "Color protection")
    then concerns.all_detected ++ ["Color protection"] else concerns.all_detected
  { hair_texture := texture1,
    hair_type_keywords := dedupFirst keywords2,
    primary_concern := concerns.primary_concern,
    secondary_concern := concerns.secondary_concern,
    detected_concerns := detected1 }

/-! ## The conversational engine (app/services/chatbot_response.py) -/

/-- chatbot_response.py line 83. -/
def msg_no_match : String :=
  "Hmm, I'm having a bit of trouble finding the perfect match for you right now. Could you tell me a bit more about your hair?"

/-- chatbot_response.py line 88. -/
def msg_no_products : String :=
  "Oops! I couldn't find any products that match your needs. Let me try to help you better!"

/-- chatbot_response.py line 94. -/
def msg_recommend (product : String) : String :=
  "Perfect! I've found just the right solution for you. I recommend the **" ++ product ++
  "** range — it's exactly what your hair needs! Here's what it includes:"

/-- chatbot_response.py line 101. -/
def msg_multi (products : String) : String :=
  "Great news! I found some fantastic matches for you: " ++ products ++
  ". To give you the best recommendation, could you help me understand which goal is most important to you — repair, hydration, or nourishment?"

/-- chatbot_response.py line 203: the generic re-prompt of the loop guard. -/
def msg_generic_reprompt : String :=
  "I'd love to help you find the perfect hair care solution! Could you tell me a bit more about your hair so I can give you the best recommendation?"

/-- chatbot_response.py line 212. -/
def msg_ask_hair_type : String :=
  "What's your hair type like? (e.g., dry, damaged, or colored)"

/-- chatbot_response.py line 214. -/
def msg_ask_texture : String :=
  "How would you describe your hair texture — fine, medium, or coarse?"

/-- chatbot_response.py line 216. -/
def msg_ask_concern : String :=
  "What's your main hair concern — frizz, dryness, or repair?"

/-- chatbot_response.py line 230: no match came back from the matcher. -/
def msg_matcher_trouble : String :=
  "I'm having a bit of trouble finding the perfect match for you. Could you tell me more about your hair goals — are you looking for moisture, volume, or repair?"

/-- chatbot_response.py line 243: the low-confidence fallback. -/
def msg_low_confidence : String :=
  "I want to make sure I give you the perfect recommendation! Could you tell me more about your hair goals? For example, are you looking for hydration, color protection, or repair?"

/-- One turn's outward result.  A Python dictionary key that is absent is
modelled like one set to its falsy default (`False`, `[]`, no profile):
the callers only test truthiness of these keys. -/
structure TurnResult where
  message : String
  need_more_info : Bool := false
  need_clarification : Bool := false
  final_recommendation : Bool := false
  options : List String := []
  combined_recommendations : List ScoredEntry := []
  user_profile : Option Profile := Option.none
  match_list : List ScoredEntry := []  -- the "matches" key (`matches` is a Lean keyword)
deriving DecidableEq

/-- `evaluate_matches` (chatbot_response.py lines 81-104).  Python builds
`top_products` as `list({...})`, a set whose iteration order is
unspecified; it is modelled as the first-occurrence order, which agrees
with the set in membership and cardinality — all the engine reads from it
besides the wording of the multi-product message. -/
def evaluate_matches (ms : List ScoredEntry) : TurnResult :=
  if ms = [] then { message := msg_no_match }
  else
    let top_products := dedupFirst ((ms.map (fun m => m.entry.product)).filter (fun s => s ≠ ""))
    if top_products = [] then { message := msg_no_products }
    else if top_products.length = 1 then
      let product := top_products.headD ""
      { message := msg_recommend product,
        combined_recommendations := ms.filter (fun m => m.entry.product = product),
        final_recommendation := true }
    else
      { message := msg_multi (pyJoin ", " top_products),
        need_clarification := true,
        options := top_products }

/-- chatbot_response.py lines 140-143 and 174 and 259: the clarification
trigger.  `text_result.get("is_clarification")` is always `None` (the
analyzer never emits that key), so only the raw-text keyword test remains;
the `need_clarification` local flag of line 139-143 is its negation. -/
def is_clarification_turn (text_lower : String) : Bool :=
  strIn "hydration" text_lower || strIn "repair" text_lower || strIn "nourishment" text_lower

/-- The `concern_synonyms` dictionary (chatbot_response.py lines 155-165),
in insertion order. -/
def concern_synonyms : List (String × String) :=
  [("hydration", "Dryness"), ("moisture", "Dryness"), ("moisturizing", "Dryness"),
   ("repair", "Damage"), ("regeneration", "Damage"), ("shine", "Dullness"),
   ("smooth", "Frizz Control"), ("color protection", "Color Care"),
   ("nourishment", "Nutrition")]

/-- Steps 5-6 (chatbot_response.py lines 154-181): the concern after the
synonym scan (first key contained in the lowered message wins) and the
clarification override. -/
def normalized_concern_of (text_lower : String) (base : Option String) : Option String :=
  let after_syn :=
    match concern_synonyms.find? (fun kv => strIn kv.1 text_lower) with
    | some kv => some kv.2
    | Option.none => base
  if is_clarification_turn text_lower then
    if strIn "hydration" text_lower || strIn "moisturizing" text_lower then some "Dryness"
    else if strIn "repair" text_lower then some "Damage"
    else if strIn "nourishment" text_lower || strIn "nutrition" text_lower then some "Nutrition"
    else after_syn
  else after_syn

/-- Steps 2-4 (chatbot_response.py lines 122-152): the turn's observed
hair-type tokens — the image analyzer's keywords then the text analyzer's,
lower-cased and deduplicated — with the raw-text fallback seeding when
none were observed. -/
def combined_hair_type_of (message : String) (image_keywords : Option (List String)) :
    List String :=
  let tokens :=
    (match image_keywords with
     | Option.none => []
     | some kws => kws.map pyLower) ++
    (analyze_text_input message).hair_type_keywords.map pyLower
  let combined := dedupFirst tokens
  if combined = [] then
    let tl := pyLower message
    (if strIn "dry" tl then ["dry"] else []) ++
    (if strIn "damage" tl || strIn "damaged" tl then ["damaged"] else []) ++
    (if strIn "color" tl || strIn "bleach" tl then ["colored & bleached"] else [])
  else combined

/-- One scalar key of the `update_session` merge: a truthy incoming value
overwrites, `None` or `""` leaves the stored value. -/
def mergeScalar (old incoming : Option String) : Option String :=
  match incoming with
  | Option.none => old
  | some s => if s = "" then old else some s

/-- Step 7 (chatbot_response.py lines 183-193): the profile stored back in
the session by `update_session`.  `hair_type` is passed as
`combined_hair_type or None`, so an empty observation list leaves the
stored list untouched and a non-empty one replaces it; `_last_asked` is
not among the update's keys; `_last_activity` is always (re)set. -/
def merged_profile_of (message : String) (image_keywords : Option (List String))
    (stored : Profile) : Profile :=
  let tr := analyze_text_input message
  let combined := combined_hair_type_of message image_keywords
  { hair_type := if combined = [] then stored.hair_type else combined,
    hair_texture := mergeScalar stored.hair_texture tr.hair_texture,
    primary_concern :=
      mergeScalar stored.primary_concern (normalized_concern_of (pyLower message) tr.primary_concern),
    secondary_concern := mergeScalar stored.secondary_concern tr.secondary_concern,
    last_asked := stored.last_asked,
    has_last_activity := true }

/-- chatbot_response.py line 196. -/
def required_fields : List String := ["hair_type", "hair_texture", "primary_concern"]

/-- Truthiness of `user_profile.get(f)` for a required field name. -/
def profile_field_truthy (p : Profile) : String → Bool
  | "hair_type" => p.hair_type ≠ []
  | "hair_texture" => truthyOpt p.hair_texture
  | "primary_concern" => truthyOpt p.primary_concern
  | _ => false

/-- Step 8 (chatbot_response.py line 200): the falsy required fields, in
the fixed order of `required_fields`. -/
def missingOf (p : Profile) : List String :=
  required_fields.filter (fun f => !profile_field_truthy p f)

/-- chatbot_response.py lines 210-219: one targeted question per missing
field, in fixed order, joined by a space. -/
def prompts_for (missing : List String) : String :=
  pyJoin " "
    ((if missing.contains "hair_type" then [msg_ask_hair_type] else []) ++
     (if missing.contains "hair_texture" then [msg_ask_texture] else []) ++
     (if missing.contains "primary_concern" then [msg_ask_concern] else []))

/-- `normalized_matches[0].get("match_score", 0)` (chatbot_response.py
line 238). -/
def top_score_of : List ScoredEntry → ℚ
  | [] => 0
  | m :: _ => m.match_score

/-- Steps 8 (incomplete case, chatbot_response.py lines 199-223): the
loop-guarded prompt for the missing fields.  The generic branch returns
the session dictionary unchanged (`_last_asked` keeps its old value, equal
to `missing`); the targeted branch records `missing` in `_last_asked` —
inside the same dictionary the snapshot is taken from. -/
def incomplete_turn (merged : Profile) (missing : List String) : TurnResult × Profile :=
  if merged.last_asked = some missing then
    let r : TurnResult :=
      { message := msg_generic_reprompt, need_more_info := true, user_profile := some merged }
    (r, merged)
  else
    let p1 := { merged with last_asked := some missing }
    let r : TurnResult :=
      { message := prompts_for missing, need_more_info := true, user_profile := some p1 }
    (r, p1)

/-- Step 12's match filtering on a clarification turn (chatbot_response.py
lines 262-277): hydration prefers the product named "Aqua Revive", repair
the product named "Total Repair", nourishment the entries whose concern
tags mention "Nutrition" (a case-sensitive substring test); each filter
falls back to the unfiltered list when it would empty it. -/
def clarification_filter (text_lower : String) (ms : List ScoredEntry) : List ScoredEntry :=
  if strIn "hydration" text_lower || strIn "moisturizing" text_lower then
    let f := ms.filter (fun m => m.entry.product = "Aqua Revive")
    if f = [] then ms else f
  else if strIn "repair" text_lower then
    let f := ms.filter (fun m => m.entry.product = "Total Repair")
    if f = [] then ms else f
  else if strIn "nourishment" text_lower || strIn "nutrition" text_lower then
    let f := ms.filter (fun m =>
      strIn "Nutrition" m.entry.primaryConcernTag ||
      strIn "Nutrition" m.entry.secondaryConcernTag)
    if f = [] then ms else f
  else ms

/-- Steps 9-13 (chatbot_response.py lines 225-292): matching, the
(unreachable) low-confidence gate, evaluation, and the clarification
cycle with its hard-coded product filters. -/
def complete_turn (text_lower : String) (merged : Profile) (catalog : List CatalogEntry) :
    TurnResult × Profile :=
  let ms := match_user_profile merged catalog
  if ms = [] then
    let r : TurnResult :=
      { message := msg_matcher_trouble, need_more_info := true, user_profile := some merged }
    (r, merged)
  else if top_score_of ms < 0.6 ∧ truthyOpt merged.primary_concern = false then
    let r : TurnResult :=
      { message := msg_low_confidence, need_more_info := true, user_profile := some merged,
        match_list := ms }
    (r, merged)
  else
    let ev0 := evaluate_matches ms
    let ev1 := if is_clarification_turn text_lower
               then { ev0 with need_clarification := false } else ev0
    if is_clarification_turn text_lower then
      let ms1 := clarification_filter text_lower ms
      if ms1 ≠ [] then
        let ev2 := evaluate_matches ms1
        let r : TurnResult :=
          { ev2 with
            need_clarification := false,
            final_recommendation := true,
            user_profile := some merged,
            match_list := ms1 }
        (r, merged)
      else
        let r : TurnResult := { ev1 with user_profile := some merged, match_list := ms1 }
        (r, merged)
    else
      let r : TurnResult := { ev1 with user_profile := some merged, match_list := ms }
      (r, merged)

/-- `generate_chatbot_response` (chatbot_response.py lines 107-292): one
conversational turn.  `stored` is the resolved, non-expired session
profile the turn starts from (session-id resolution and TTL are
wall-clock concerns outside the model); `image_keywords` is the image
analyzer's optional output.  Returns the outward result and the profile
left in the session store. -/
def generate_chatbot_response (message : String) (image_keywords : Option (List String))
    (stored : Profile) (catalog : List CatalogEntry) : TurnResult × Profile :=
  let merged := merged_profile_of message image_keywords stored
  let missing := missingOf merged
  if missing ≠ [] then incomplete_turn merged missing
  else complete_turn (pyLower message) merged catalog

/-! ## Predicates and concrete inputs used by the claim theorems -/

/-- Exactly one of the three outcome flags of a turn result is true (a key
absent from the Python dictionary reads as false). -/
def exactlyOneFlag (r : TurnResult) : Prop :=
  (r.need_more_info = true ∧ r.need_clarification = false ∧ r.final_recommendation = false) ∨
  (r.need_more_info = false ∧ r.need_clarification = true ∧ r.final_recommendation = false) ∨
  (r.need_more_info = false ∧ r.need_clarification = false ∧ r.final_recommendation = true)

/-- The scan behind case-insensitive first-occurrence deduplication:
`seen` holds the lower-cased forms already kept. -/
def dedupCaseFirstAux (seen : List String) : List String → List String
  | [] => []
  | x :: xs =>
    if pyLower x ∈ seen then dedupCaseFirstAux seen xs
    else x :: dedupCaseFirstAux (pyLower x :: seen) xs

/-- Case-insensitive first-occurrence deduplication, for the comparison
definition below. -/
def dedupCaseFirst (l : List String) : List String := dedupCaseFirstAux [] l

/-- The `hair_type` merge as the specification words it — "a
case-insensitively deduplicated, order-preserving union of existing tokens
followed by newly observed tokens" — written from the spec's words, to be
compared with the merge the code performs. -/
def hair_type_union_spec (existing observed : List String) : List String :=
  dedupCaseFirst (existing ++ observed)

/-- A fresh session's empty profile dictionary. -/
def emptyProfile : Profile := {}

/-- The catalog row of the specification's worked example (§8). -/
def aqua_revive_entry : CatalogEntry :=
  { product := "Aqua Revive", hairTypeTag := "Dry, Strawy", hairTextureTag := "Fine",
    primaryConcernTag := "Dryness", secondaryConcernTag := "" }

/-- The profile of the specification's worked example (§8). -/
def example_profile : Profile :=
  { hair_type := ["dry"], hair_texture := some "Fine", primary_concern := some "Dryness" }

/-- A catalog row whose `Hair Type` tag has three tokens, so the Jaccard
term is 1/3 and the weighted total has a repeating decimal expansion. -/
def third_entry : CatalogEntry :=
  { product := "Tri", hairTypeTag := "a, b, c", hairTextureTag := "qq",
    primaryConcernTag := "qq", secondaryConcernTag := "qq" }

/-- A profile matching one of `third_entry`'s three hair-type tokens and
nothing else. -/
def third_profile : Profile :=
  { hair_type := ["a"], hair_texture := some "zz", primary_concern := some "zz",
    secondary_concern := some "zz" }

/-- Three consecutive turns of one session, each with the uninformative
message "hello" and no image: the trace behind the anti-repetition claim. -/
def hello_turn1 : TurnResult × Profile := generate_chatbot_response "hello" Option.none emptyProfile []

/-- The second "hello" turn, continuing from the first one's session. -/
def hello_turn2 : TurnResult × Profile := generate_chatbot_response "hello" Option.none hello_turn1.2 []

/-- The third "hello" turn, continuing from the second one's session. -/
def hello_turn3 : TurnResult × Profile := generate_chatbot_response "hello" Option.none hello_turn2.2 []

/-- A catalog row named "Aqua Revive" whose concern tags do not mention
Dryness. -/
def aqua_damage_entry : CatalogEntry :=
  { product := "Aqua Revive", hairTypeTag := "Dry", hairTextureTag := "Fine",
    primaryConcernTag := "Damage", secondaryConcernTag := "" }

/-- A catalog row of a different product whose `Primary Concern` tag is
Dryness. -/
def hydramax_entry : CatalogEntry :=
  { product := "HydraMax", hairTypeTag := "Dry", hairTextureTag := "Fine",
    primaryConcernTag := "Dryness", secondaryConcernTag := "" }

/-- A session profile that is already complete. -/
def full_profile : Profile :=
  { hair_type := ["dry"], hair_texture := some "Fine", primary_concern := some "Dryness" }

/-- The clarification-reply turn "hydration" against the two-row catalog
above, from the complete session. -/
def hydration_turn : TurnResult × Profile :=
  generate_chatbot_response "hydration" Option.none full_profile [aqua_damage_entry, hydramax_entry]

/-- A catalog row sharing almost nothing with `full_profile`: only the
absent secondary concern contributes, for a top score of 0.15. -/
def low_entry : CatalogEntry :=
  { product := "X", hairTypeTag := "oily", hairTextureTag := "coarse",
    primaryConcernTag := "Damage", secondaryConcernTag := "Frizz" }

/-- The turn "ok" (no signal of any kind) from the complete session
against the low-scoring one-row catalog. -/
def ok_turn : TurnResult × Profile :=
  generate_chatbot_response "ok" Option.none full_profile [low_entry]

/-- The turn "my hair is damaged" from a session that already knows
`hair_type = ["dry"]`. -/
def damaged_turn : TurnResult × Profile :=
  generate_chatbot_response "my hair is damaged" Option.none full_profile []

/-! ## Basic lemmas about the helpers -/

theorem isInfixL_nil (l : List Char) : isInfixL [] l = true := by
  cases l <;> simp [isInfixL, isPrefixL, List.isEmpty]

theorem strIn_empty_left (s : String) : strIn "" s = true := by
  unfold strIn
  exact isInfixL_nil s.data

theorem mem_dedupFirstAux (a : String) : ∀ (l seen : List String),
    a ∈ dedupFirstAux seen l ↔ (a ∈ l ∧ a ∉ seen) := by
  intro l
  induction l with
  | nil => intro seen; simp [dedupFirstAux]
  | cons x xs ih =>
    intro seen
    unfold dedupFirstAux
    by_cases hx : x ∈ seen
    · rw [if_pos hx, ih]
      constructor
      · rintro ⟨h1, h2⟩
        exact ⟨List.mem_cons_of_mem _ h1, h2⟩
      · rintro ⟨h1, h2⟩
        rcases List.mem_cons.mp h1 with rfl | h1'
        · exact absurd hx h2
        · exact ⟨h1', h2⟩
    · rw [if_neg hx]
      simp only [List.mem_cons, ih]
      constructor
      · rintro (rfl | ⟨h1, h2⟩)
        · exact ⟨Or.inl rfl, hx⟩
        · exact ⟨Or.inr h1, fun hs => h2 (Or.inr hs)⟩
      · rintro ⟨rfl | h1, h2⟩
        · exact Or.inl rfl
        · by_cases hax : a = x
          · exact Or.inl hax
          · refine Or.inr ⟨h1, fun hs => ?_⟩
            rcases hs with h | h
            exacts [hax h, h2 h]

theorem mem_dedupFirst {a : String} {l : List String} : a ∈ dedupFirst l ↔ a ∈ l := by
  unfold dedupFirst
  rw [mem_dedupFirstAux]
  simp

theorem nodup_dedupFirstAux : ∀ (l seen : List String), (dedupFirstAux seen l).Nodup := by
  intro l
  induction l with
  | nil => intro seen; simp [dedupFirstAux]
  | cons x xs ih =>
    intro seen
    unfold dedupFirstAux
    by_cases hx : x ∈ seen
    · rw [if_pos hx]; exact ih seen
    · rw [if_neg hx]
      refine List.nodup_cons.mpr ⟨?_, ih (x :: seen)⟩
      intro hmem
      exact ((mem_dedupFirstAux x xs (x :: seen)).mp hmem).2 (List.mem_cons_self x seen)

theorem nodup_dedupFirst (l : List String) : (dedupFirst l).Nodup :=
  nodup_dedupFirstAux l []

theorem dedupFirstAux_append_self {x : String} : ∀ (l seen : List String),
    (x ∈ l ∨ x ∈ seen) → dedupFirstAux seen (l ++ [x]) = dedupFirstAux seen l := by
  intro l
  induction l with
  | nil =>
    intro seen hx
    rcases hx with h | h
    · simp at h
    · simp [dedupFirstAux, h]
  | cons y ys ih =>
    intro seen hx
    rw [List.cons_append]
    unfold dedupFirstAux
    by_cases hy : y ∈ seen
    · rw [if_pos hy, if_pos hy]
      refine ih seen ?_
      rcases hx with h | h
      · rcases List.mem_cons.mp h with rfl | h'
        · exact Or.inr hy
        · exact Or.inl h'
      · exact Or.inr h
    · rw [if_neg hy, if_neg hy]
      congr 1
      refine ih (y :: seen) ?_
      rcases hx with h | h
      · rcases List.mem_cons.mp h with rfl | h'
        · exact Or.inr (List.mem_cons_self x seen)
        · exact Or.inl h'
      · exact Or.inr (List.mem_cons_of_mem y h)

theorem dedupFirst_append_self {x : String} {l : List String} (hx : x ∈ l) :
    dedupFirst (l ++ [x]) = dedupFirst l :=
  dedupFirstAux_append_self l [] (Or.inl hx)

/-! ## Claim C2: monotonic profile accumulation in `update_session` -/

theorem update_session_keeps_truthy (new_data : List (String × PyVal)) :
    ∀ (existing : String → PyVal) (k : String), pyTruthy (existing k) = true →
      pyTruthy (update_session existing new_data k) = true := by
  induction new_data with
  | nil => exact fun _ _ h => h
  | cons kv nds ih =>
    intro existing k h
    refine ih (applyUpdate existing kv) k ?_
    unfold applyUpdate
    split
    next hc => exact hc.2
    next => exact h

theorem update_session_seq_keeps_truthy (updates : List (List (String × PyVal))) :
    ∀ (existing : String → PyVal) (k : String), pyTruthy (existing k) = true →
      pyTruthy (update_session_seq existing updates k) = true := by
  induction updates with
  | nil => exact fun _ _ h => h
  | cons nd rest ih =>
    intro existing k h
    exact ih (update_session existing nd) k (update_session_keeps_truthy nd existing k h)

theorem update_session_skips_empty (new_data : List (String × PyVal)) :
    ∀ (existing : String → PyVal) (k : String),
      (∀ v, (k, v) ∈ new_data → pyTruthy v = false) →
      update_session existing new_data k = existing k := by
  induction new_data with
  | nil => exact fun _ _ _ => rfl
  | cons kv nds ih =>
    intro existing k h
    have step : applyUpdate existing kv k = existing k := by
      unfold applyUpdate
      split
      next hc =>
        exfalso
        have hkv : (k, kv.2) = kv := by rw [hc.1]
        have hmem : (k, kv.2) ∈ kv :: nds := hkv ▸ List.mem_cons_self kv nds
        have := h kv.2 hmem
        rw [this] at hc
        exact Bool.false_ne_true hc.2
      next => rfl
    calc update_session existing (kv :: nds) k
        = update_session (applyUpdate existing kv) nds k := rfl
      _ = applyUpdate existing kv k :=
          ih _ k (fun v hv => h v (List.mem_cons_of_mem kv hv))
      _ = existing k := step

/-- C2: over any sequence of `update_session` merges a field that is
truthy (non-empty) in the stored session dictionary stays truthy — an
empty, absent or `None` incoming value never overwrites it — and a single
merge whose values for a key are all falsy (or that omit the key) leaves
that key's stored value exactly unchanged.  Resetting is a separate
operation (`reset_sessions` clears the store), not a merge. -/
theorem update_session_monotonic (existing : String → PyVal)
    (updates : List (List (String × PyVal))) (k : String) :
    (pyTruthy (existing k) = true → pyTruthy (update_session_seq existing updates k) = true) ∧
    (∀ new_data : List (String × PyVal),
      (∀ v, (k, v) ∈ new_data → pyTruthy v = false) →
      update_session existing new_data k = existing k) :=
  ⟨fun h => update_session_seq_keeps_truthy updates existing k h,
   fun nd h => update_session_skips_empty nd existing k h⟩

/-- A stored session dictionary holding only a hair type, for the witness. -/
def c2_existing : String → PyVal :=
  fun k => if k = "hair_type" then PyVal.list ["dry"] else PyVal.none

/-- Witness for C2 at a concrete store and merge sequence. -/
theorem update_session_monotonic_witness :
    pyTruthy (c2_existing "hair_type") = true ∧
    pyTruthy (update_session_seq c2_existing
      [[("hair_type", PyVal.none)], [("hair_texture", PyVal.str "Fine")]] "hair_type") = true :=
  ⟨by decide,
   (update_session_monotonic c2_existing
      [[("hair_type", PyVal.none)], [("hair_texture", PyVal.str "Fine")]] "hair_type").1
     (by decide)⟩

/-! ## Claim C10: an absent scalar field scores its full weight -/

/-- C10: in `match_user_profile`, an absent scalar profile field makes its
contains-indicator `1.0` — the empty string is a substring of every tag —
so the field's full weight is added to every entry's score; in particular
an unknown `secondary_concern` adds the full `0.15` to every entry. -/
theorem absent_scalar_full_weight (p : Profile) (e : CatalogEntry) :
    (p.hair_texture = Option.none → textureInd p e = 1) ∧
    (p.primary_concern = Option.none → primaryInd p e = 1) ∧
    (p.secondary_concern = Option.none →
      secondaryInd p e = 1 ∧
      rawScore p e = 0.4 * hairTypeSim p e + 0.2 * textureInd p e +
        0.25 * primaryInd p e + 0.15) := by
  have hlow : pyLower "" = "" := rfl
  refine ⟨?_, ?_, ?_⟩
  · intro h
    unfold textureInd
    rw [h]
    simp [optStr, hlow, strIn_empty_left]
  · intro h
    unfold primaryInd
    rw [h]
    simp [optStr, hlow, strIn_empty_left]
  · intro h
    have hsec : secondaryInd p e = 1 := by
      unfold secondaryInd
      rw [h]
      simp [optStr, hlow, strIn_empty_left]
    refine ⟨hsec, ?_⟩
    unfold rawScore
    rw [hsec]
    ring

/-- Witness for C10 at the fresh empty profile and the example entry. -/
theorem absent_scalar_full_weight_witness :
    textureInd emptyProfile aqua_revive_entry = 1 ∧
    secondaryInd emptyProfile aqua_revive_entry = 1 ∧
    rawScore emptyProfile aqua_revive_entry =
      0.4 * hairTypeSim emptyProfile aqua_revive_entry +
      0.2 * textureInd emptyProfile aqua_revive_entry +
      0.25 * primaryInd emptyProfile aqua_revive_entry + 0.15 :=
  ⟨(absent_scalar_full_weight emptyProfile aqua_revive_entry).1 rfl,
   ((absent_scalar_full_weight emptyProfile aqua_revive_entry).2.2 rfl).1,
   ((absent_scalar_full_weight emptyProfile aqua_revive_entry).2.2 rfl).2⟩

/-! ## Claim C3: the `hair_type` merge overwrites, it does not union -/

/-- C3 counterexample: a session already storing `hair_type = ["dry"]`
takes the turn "my hair is damaged", which observes the token "damaged".
The claim's union would store `["dry", "damaged"]`; the engine stores
`["damaged"]` — `update_session` replaces the list, the existing token is
dropped. -/
theorem hair_type_merge_counterexample :
    combined_hair_type_of "my hair is damaged" Option.none = ["damaged"] ∧
    full_profile.hair_type = ["dry"] ∧
    damaged_turn.2.hair_type = ["damaged"] ∧
    hair_type_union_spec ["dry"] ["damaged"] = ["dry", "damaged"] ∧
    (["damaged"] : List String) ≠ ["dry", "damaged"] :=
  ⟨by decide, by decide, by decide, by decide, by decide⟩

/-- C3 corrected: when a turn observes hair-type tokens, the stored
`hair_type` becomes exactly this turn's observed token list (lower-cased,
first-occurrence-deduplicated, so merging a duplicate keyword within the
turn adds no second occurrence); the previously stored tokens are dropped,
not unioned.  Only a turn that observes no tokens keeps the stored list. -/
theorem hair_type_merge_amended (message : String) (image_keywords : Option (List String))
    (stored : Profile) :
    (combined_hair_type_of message image_keywords ≠ [] →
      (merged_profile_of message image_keywords stored).hair_type =
        combined_hair_type_of message image_keywords) ∧
    (combined_hair_type_of message image_keywords = [] →
      (merged_profile_of message image_keywords stored).hair_type = stored.hair_type) ∧
    (∀ l : List String, (dedupFirst l).Nodup) ∧
    (∀ (l : List String) (x : String), x ∈ l → dedupFirst (l ++ [x]) = dedupFirst l) := by
  refine ⟨?_, ?_, nodup_dedupFirst, fun l x hx => dedupFirst_append_self hx⟩
  · intro h
    simp [merged_profile_of, h]
  · intro h
    simp [merged_profile_of, h]

/-- Witness for the corrected C3 at the counterexample's own turn. -/
theorem hair_type_merge_amended_witness :
    combined_hair_type_of "my hair is damaged" Option.none ≠ [] ∧
    (merged_profile_of "my hair is damaged" Option.none full_profile).hair_type =
      combined_hair_type_of "my hair is damaged" Option.none ∧
    ("dry" : String) ∈ ["dry", "fine"] ∧
    dedupFirst (["dry", "fine"] ++ ["dry"]) = dedupFirst ["dry", "fine"] :=
  ⟨by decide,
   (hair_type_merge_amended "my hair is damaged" Option.none full_profile).1 (by decide),
   by decide,
   (hair_type_merge_amended "my hair is damaged" Option.none full_profile).2.2.2
     ["dry", "fine"] "dry" (by decide)⟩

/-! ## Claim C9: the profile snapshot exposes the bookkeeping keys -/

theorem incomplete_turn_snapshot (merged : Profile) (missing : List String) :
    (incomplete_turn merged missing).1.user_profile = some (incomplete_turn merged missing).2 := by
  unfold incomplete_turn
  split <;> rfl

theorem incomplete_turn_snd_activity (merged : Profile) (missing : List String) :
    (incomplete_turn merged missing).2.has_last_activity = merged.has_last_activity := by
  unfold incomplete_turn
  split <;> rfl

theorem complete_turn_snapshot (tl : String) (merged : Profile) (catalog : List CatalogEntry) :
    (complete_turn tl merged catalog).1.user_profile = some (complete_turn tl merged catalog).2 := by
  simp only [complete_turn]
  split_ifs <;> rfl

theorem complete_turn_snd (tl : String) (merged : Profile) (catalog : List CatalogEntry) :
    (complete_turn tl merged catalog).2 = merged := by
  simp only [complete_turn]
  split_ifs <;> rfl

/-- C9 counterexample: the very first uninformative turn of a session
returns a `user_profile` snapshot that carries both bookkeeping keys — the
`_last_asked` loop-guard list just recorded, and the `_last_activity`
marker `update_session` always writes. -/
theorem profile_snapshot_counterexample :
    hello_turn1.1.user_profile = some hello_turn1.2 ∧
    hello_turn1.2.last_asked = some ["hair_type", "hair_texture", "primary_concern"] ∧
    hello_turn1.2.has_last_activity = true :=
  ⟨by decide, by decide, by decide⟩

/-- C9 corrected: the `user_profile` snapshot is the session dictionary
itself (the same object `update_session` stored), so it exposes the
internal bookkeeping: every turn's snapshot carries `_last_activity`, and
it carries `_last_asked` whenever it was ever recorded for the session. -/
theorem profile_snapshot_amended (message : String) (image_keywords : Option (List String))
    (stored : Profile) (catalog : List CatalogEntry) :
    (generate_chatbot_response message image_keywords stored catalog).1.user_profile =
      some (generate_chatbot_response message image_keywords stored catalog).2 ∧
    (generate_chatbot_response message image_keywords stored catalog).2.has_last_activity
      = true := by
  constructor
  · simp only [generate_chatbot_response]
    split
    · exact incomplete_turn_snapshot _ _
    · exact complete_turn_snapshot _ _ _
  · simp only [generate_chatbot_response]
    split
    · rw [incomplete_turn_snd_activity]
      rfl
    · rw [complete_turn_snd]
      rfl

/-! ## Evaluation helpers for concrete matcher runs -/

theorem compute_similarity_eval (u d : List String) (hu : u ≠ []) (hd : d ≠ [])
    (i n : ℕ) (hi : (stripSet u ∩ stripSet d).card = i)
    (hn : (stripSet u ∪ stripSet d).card = n) (hpos : 0 < n) :
    compute_similarity u d = (i : ℚ) / n := by
  unfold compute_similarity
  rw [if_neg (by simp [hu, hd])]
  simp only [hi, hn]
  rw [if_pos hpos]

theorem roundq3_eval (q : ℚ) (n : ℤ) (h : 1000 * q = (n : ℚ)) : roundq3 q = (n : ℚ) / 1000 := by
  unfold roundq3
  rw [h, round_intCast]

theorem match_singleton (p : Profile) (e : CatalogEntry) (s : ℚ)
    (hs : roundq3 (rawScore p e) = s) (hpos : 0 < s) :
    match_user_profile p [e] = [{ match_score := s, idx := 0, entry := e }] := by
  unfold match_user_profile rankedResults scoredResults
  rw [show List.enum [e] = [(0, e)] from rfl]
  simp only [List.map]
  rw [hs]
  simp [List.insertionSort, List.orderedInsert, List.filter, hpos]

theorem match_pair_swap (p : Profile) (e1 e2 : CatalogEntry) (s1 s2 : ℚ)
    (h1 : roundq3 (rawScore p e1) = s1) (h2 : roundq3 (rawScore p e2) = s2)
    (hlt : s1 < s2) (hp1 : 0 < s1) (hp2 : 0 < s2) :
    match_user_profile p [e1, e2] =
      [{ match_score := s2, idx := 1, entry := e2 },
       { match_score := s1, idx := 0, entry := e1 }] := by
  unfold match_user_profile rankedResults scoredResults
  rw [show List.enum [e1, e2] = [(0, e1), (1, e2)] from rfl]
  simp only [List.map]
  rw [h1, h2]
  have hnr : ¬ rankedBefore
      { match_score := s1, idx := 0, entry := e1 } { match_score := s2, idx := 1, entry := e2 } := by
    unfold rankedBefore
    push_neg
    exact ⟨le_of_lt hlt, fun h => absurd h (ne_of_lt hlt)⟩
  simp only [List.insertionSort, List.orderedInsert]
  rw [if_neg hnr]
  simp [List.filter, hp1, hp2]

/-- Turns with a missing required field take the loop-guarded prompt path. -/
theorem generate_incomplete (message : String) (image_keywords : Option (List String))
    (stored : Profile) (catalog : List CatalogEntry)
    (h : missingOf (merged_profile_of message image_keywords stored) ≠ []) :
    generate_chatbot_response message image_keywords stored catalog =
      incomplete_turn (merged_profile_of message image_keywords stored)
        (missingOf (merged_profile_of message image_keywords stored)) := by
  simp only [generate_chatbot_response]
  rw [if_pos h]

/-- Turns with a complete profile take the matching path. -/
theorem generate_complete (message : String) (image_keywords : Option (List String))
    (stored : Profile) (catalog : List CatalogEntry)
    (h : missingOf (merged_profile_of message image_keywords stored) = []) :
    generate_chatbot_response message image_keywords stored catalog =
      complete_turn (pyLower message) (merged_profile_of message image_keywords stored) catalog := by
  simp only [generate_chatbot_response]
  rw [if_neg (by simp [h])]

/-! ## Claim C4: the scoring formula and the worked example -/

/-- The worked example's row scores 0.8 (not the spec's 0.65): Jaccard 1/2
weighted 0.4, texture and primary contained, and — the secondary concern
being absent — the full 0.15 secondary weight as well. -/
theorem example_match_eval :
    match_user_profile example_profile [aqua_revive_entry] =
      [{ match_score := 4/5, idx := 0, entry := aqua_revive_entry }] := by
  have hj : hairTypeSim example_profile aqua_revive_entry = 1/2 := by
    unfold hairTypeSim
    rw [compute_similarity_eval example_profile.hair_type
        (tokenize aqua_revive_entry.hairTypeTag)
        (by decide) (by decide) 1 2 (by decide) (by decide) (by norm_num)]
    norm_num
  have hraw : rawScore example_profile aqua_revive_entry = 4/5 := by
    unfold rawScore
    rw [hj, show textureInd example_profile aqua_revive_entry = 1 from rfl,
        show primaryInd example_profile aqua_revive_entry = 1 from rfl,
        show secondaryInd example_profile aqua_revive_entry = 1 from rfl]
    norm_num
  refine match_singleton example_profile aqua_revive_entry (4/5) ?_ (by norm_num)
  rw [hraw, roundq3_eval (4/5) 800 (by norm_num)]
  norm_num

/-- C4 counterexample, at the specification's own worked example and at a
three-token catalog row.  (1) The example's score is not 0.65: the absent
`secondary_concern` reads as the empty string, a substring of every tag,
so the 0.15 secondary weight is also added and the score is 0.8.  (2) The
assigned `match_score` is the formula rounded to three decimals, not the
formula itself: with Jaccard 1/3 the formula yields 2/15 while the code
stores 0.133. -/
theorem match_score_formula_counterexample :
    match_user_profile example_profile [aqua_revive_entry] =
      [{ match_score := 4/5, idx := 0, entry := aqua_revive_entry }] ∧
    (4/5 : ℚ) ≠ 13/20 ∧
    match_user_profile third_profile [third_entry] =
      [{ match_score := 133/1000, idx := 0, entry := third_entry }] ∧
    rawScore third_profile third_entry = 2/15 ∧
    (133/1000 : ℚ) ≠ 2/15 := by
  have hraw2 : rawScore third_profile third_entry = 2/15 := by
    have hj : hairTypeSim third_profile third_entry = 1/3 := by
      unfold hairTypeSim
      rw [compute_similarity_eval third_profile.hair_type (tokenize third_entry.hairTypeTag)
          (by decide) (by decide) 1 3 (by decide) (by decide) (by norm_num)]
      norm_num
    unfold rawScore
    rw [hj, show textureInd third_profile third_entry = 0 from rfl,
        show primaryInd third_profile third_entry = 0 from rfl,
        show secondaryInd third_profile third_entry = 0 from rfl]
    norm_num
  refine ⟨example_match_eval, by norm_num, ?_, hraw2, by norm_num⟩
  · refine match_singleton third_profile third_entry (133/1000) ?_ (by norm_num)
    rw [hraw2]
    unfold roundq3
    rw [show round ((1000:ℚ) * (2/15)) = 133 by rw [round_eq]; norm_num [Int.floor_eq_iff]]
    norm_num

/-- C4 corrected: every scored row's `match_score` is the weighted formula
`0.4·Jaccard + 0.2·[texture] + 0.25·[primary] + 0.15·[secondary]` rounded
to three decimals; on the worked example the score is 0.8 (the absent
secondary concern contributes its full weight) and the turn still ends as
a final recommendation for "Aqua Revive". -/
theorem match_score_formula_amended :
    (∀ (p : Profile) (c : List CatalogEntry) (m : ScoredEntry), m ∈ scoredResults p c →
      m.match_score =
        roundq3 (0.4 * compute_similarity p.hair_type (tokenize m.entry.hairTypeTag) +
          0.2 * textureInd p m.entry + 0.25 * primaryInd p m.entry +
          0.15 * secondaryInd p m.entry)) ∧
    match_user_profile example_profile [aqua_revive_entry] =
      [{ match_score := 4/5, idx := 0, entry := aqua_revive_entry }] ∧
    (evaluate_matches
        (match_user_profile example_profile [aqua_revive_entry])).final_recommendation = true ∧
    (evaluate_matches (match_user_profile example_profile [aqua_revive_entry])).message =
      msg_recommend "Aqua Revive" := by
  refine ⟨?_, example_match_eval, ?_, ?_⟩
  · intro p c m hm
    unfold scoredResults at hm
    rcases List.mem_map.mp hm with ⟨ie, _, rfl⟩
    simp only [rawScore, hairTypeSim]
  · rw [example_match_eval]
    rfl
  · rw [example_match_eval]
    rfl

/-- Witness for the corrected C4's formula conjunct at the example row. -/
theorem match_score_formula_amended_witness :
    ({ match_score := 4/5, idx := 0, entry := aqua_revive_entry } : ScoredEntry) ∈
      scoredResults example_profile [aqua_revive_entry] ∧
    ({ match_score := (4/5 : ℚ), idx := 0, entry := aqua_revive_entry } : ScoredEntry).match_score =
      roundq3 (0.4 * compute_similarity example_profile.hair_type
          (tokenize aqua_revive_entry.hairTypeTag) +
        0.2 * textureInd example_profile aqua_revive_entry +
        0.25 * primaryInd example_profile aqua_revive_entry +
        0.15 * secondaryInd example_profile aqua_revive_entry) := by
  have hmem : ({ match_score := 4/5, idx := 0, entry := aqua_revive_entry } : ScoredEntry) ∈
      scoredResults example_profile [aqua_revive_entry] := by
    have h4 : roundq3 (rawScore example_profile aqua_revive_entry) = 4/5 := by
      have hj : hairTypeSim example_profile aqua_revive_entry = 1/2 := by
        unfold hairTypeSim
        rw [compute_similarity_eval example_profile.hair_type
            (tokenize aqua_revive_entry.hairTypeTag)
            (by decide) (by decide) 1 2 (by decide) (by decide) (by norm_num)]
        norm_num
      have hraw : rawScore example_profile aqua_revive_entry = 4/5 := by
        unfold rawScore
        rw [hj, show textureInd example_profile aqua_revive_entry = 1 from rfl,
            show primaryInd example_profile aqua_revive_entry = 1 from rfl,
            show secondaryInd example_profile aqua_revive_entry = 1 from rfl]
        norm_num
      rw [hraw, roundq3_eval (4/5) 800 (by norm_num)]
      norm_num
    unfold scoredResults
    rw [show List.enum [aqua_revive_entry] = [(0, aqua_revive_entry)] from rfl]
    simp only [List.map]
    rw [h4]
    exact List.mem_singleton.mpr rfl
  exact ⟨hmem,
    match_score_formula_amended.1 example_profile [aqua_revive_entry] _ hmem⟩

/-! ## Claim C6: the anti-repetition loop guard -/

theorem merged_last_asked (message : String) (image_keywords : Option (List String))
    (stored : Profile) :
    (merged_profile_of message image_keywords stored).last_asked = stored.last_asked := rfl

theorem missingOf_generate_snd (message : String) (image_keywords : Option (List String))
    (stored : Profile) (catalog : List CatalogEntry) :
    missingOf (generate_chatbot_response message image_keywords stored catalog).2 =
      missingOf (merged_profile_of message image_keywords stored) := by
  by_cases h : missingOf (merged_profile_of message image_keywords stored) = []
  · rw [generate_complete message image_keywords stored catalog h, complete_turn_snd]
  · rw [generate_incomplete message image_keywords stored catalog h]
    unfold incomplete_turn
    split
    · rfl
    · rfl

theorem incomplete_turn_generic (merged : Profile) (missing : List String)
    (h : merged.last_asked = some missing) :
    (incomplete_turn merged missing).1.message = msg_generic_reprompt ∧
    (incomplete_turn merged missing).2 = merged := by
  unfold incomplete_turn
  rw [if_pos h]
  exact ⟨rfl, rfl⟩

theorem incomplete_turn_targeted (merged : Profile) (missing : List String)
    (h : merged.last_asked ≠ some missing) :
    (incomplete_turn merged missing).1.message = prompts_for missing ∧
    (incomplete_turn merged missing).2 = { merged with last_asked := some missing } := by
  unfold incomplete_turn
  rw [if_neg h]
  exact ⟨rfl, rfl⟩

theorem prompts_ne_generic (p : Profile) (h : missingOf p ≠ []) :
    prompts_for (missingOf p) ≠ msg_generic_reprompt := by
  unfold missingOf required_fields at h ⊢
  cases h1 : profile_field_truthy p "hair_type" <;>
    cases h2 : profile_field_truthy p "hair_texture" <;>
      cases h3 : profile_field_truthy p "primary_concern" <;>
        simp only [List.filter, h1, h2, h3, Bool.not_false, Bool.not_true] at h ⊢ <;>
          first
            | exact absurd rfl h
            | decide

/-- C6 counterexample: three consecutive uninformative turns of one
session.  Turns two and three have the same non-empty missing-field set,
yet both return the identical generic re-prompt — the guard suppresses
repetition of the targeted questions once, but the generic re-prompt
itself repeats verbatim. -/
theorem anti_repetition_counterexample :
    missingOf hello_turn2.2 = ["hair_type", "hair_texture", "primary_concern"] ∧
    missingOf hello_turn3.2 = ["hair_type", "hair_texture", "primary_concern"] ∧
    hello_turn2.1.need_more_info = true ∧
    hello_turn3.1.need_more_info = true ∧
    hello_turn2.1.message = msg_generic_reprompt ∧
    hello_turn3.1.message = hello_turn2.1.message :=
  ⟨by decide, by decide, by decide, by decide, by decide, by decide⟩

/-- C6 corrected: when the first of the two turns asked the targeted
per-field questions (the stored guard differed from its missing set), a
consecutive turn with the same non-empty missing set returns the generic
re-prompt, which differs from the targeted text; once the generic
re-prompt has been given it repeats on further identical turns. -/
theorem anti_repetition_amended (msg1 msg2 : String) (img1 img2 : Option (List String))
    (stored : Profile) (cat1 cat2 : List CatalogEntry)
    (h1 : missingOf (generate_chatbot_response msg1 img1 stored cat1).2 ≠ [])
    (h2 : stored.last_asked ≠ some (missingOf (generate_chatbot_response msg1 img1 stored cat1).2))
    (h3 : missingOf (generate_chatbot_response msg2 img2
            (generate_chatbot_response msg1 img1 stored cat1).2 cat2).2 =
          missingOf (generate_chatbot_response msg1 img1 stored cat1).2) :
    (generate_chatbot_response msg2 img2 (generate_chatbot_response msg1 img1 stored cat1).2
        cat2).1.message = msg_generic_reprompt ∧
    (generate_chatbot_response msg1 img1 stored cat1).1.message ≠ msg_generic_reprompt ∧
    (generate_chatbot_response msg2 img2 (generate_chatbot_response msg1 img1 stored cat1).2
        cat2).1.message ≠ (generate_chatbot_response msg1 img1 stored cat1).1.message := by
  have hms1 : missingOf (generate_chatbot_response msg1 img1 stored cat1).2 =
      missingOf (merged_profile_of msg1 img1 stored) :=
    missingOf_generate_snd msg1 img1 stored cat1
  rw [hms1] at h1 h2 h3
  have hgen1 : generate_chatbot_response msg1 img1 stored cat1 =
      incomplete_turn (merged_profile_of msg1 img1 stored)
        (missingOf (merged_profile_of msg1 img1 stored)) :=
    generate_incomplete msg1 img1 stored cat1 h1
  have hne1 : (merged_profile_of msg1 img1 stored).last_asked ≠
      some (missingOf (merged_profile_of msg1 img1 stored)) := by
    rw [merged_last_asked]
    exact h2
  have ht := incomplete_turn_targeted (merged_profile_of msg1 img1 stored)
    (missingOf (merged_profile_of msg1 img1 stored)) hne1
  have hr1msg : (generate_chatbot_response msg1 img1 stored cat1).1.message =
      prompts_for (missingOf (merged_profile_of msg1 img1 stored)) := by
    rw [hgen1]
    exact ht.1
  have hp1last : (generate_chatbot_response msg1 img1 stored cat1).2.last_asked =
      some (missingOf (merged_profile_of msg1 img1 stored)) := by
    rw [hgen1, ht.2]
  have hms2 : missingOf (generate_chatbot_response msg2 img2
        (generate_chatbot_response msg1 img1 stored cat1).2 cat2).2 =
      missingOf (merged_profile_of msg2 img2
        (generate_chatbot_response msg1 img1 stored cat1).2) :=
    missingOf_generate_snd msg2 img2 (generate_chatbot_response msg1 img1 stored cat1).2 cat2
  have hmiss2 : missingOf (merged_profile_of msg2 img2
        (generate_chatbot_response msg1 img1 stored cat1).2) =
      missingOf (merged_profile_of msg1 img1 stored) := by
    rw [← hms2]
    exact h3
  have h2ne : missingOf (merged_profile_of msg2 img2
      (generate_chatbot_response msg1 img1 stored cat1).2) ≠ [] := by
    rw [hmiss2]
    exact h1
  have hgen2 : generate_chatbot_response msg2 img2
      (generate_chatbot_response msg1 img1 stored cat1).2 cat2 =
      incomplete_turn (merged_profile_of msg2 img2
        (generate_chatbot_response msg1 img1 stored cat1).2)
        (missingOf (merged_profile_of msg2 img2
          (generate_chatbot_response msg1 img1 stored cat1).2)) :=
    generate_incomplete msg2 img2 (generate_chatbot_response msg1 img1 stored cat1).2 cat2 h2ne
  have hgeneric : (merged_profile_of msg2 img2
      (generate_chatbot_response msg1 img1 stored cat1).2).last_asked =
      some (missingOf (merged_profile_of msg2 img2
        (generate_chatbot_response msg1 img1 stored cat1).2)) := by
    rw [merged_last_asked, hp1last, hmiss2]
  have hg := incomplete_turn_generic (merged_profile_of msg2 img2
    (generate_chatbot_response msg1 img1 stored cat1).2)
    (missingOf (merged_profile_of msg2 img2
      (generate_chatbot_response msg1 img1 stored cat1).2)) hgeneric
  have hr2msg : (generate_chatbot_response msg2 img2
      (generate_chatbot_response msg1 img1 stored cat1).2 cat2).1.message =
      msg_generic_reprompt := by
    rw [hgen2]
    exact hg.1
  refine ⟨hr2msg, ?_, ?_⟩
  · rw [hr1msg]
    exact prompts_ne_generic (merged_profile_of msg1 img1 stored) h1
  · rw [hr2msg, hr1msg]
    exact (prompts_ne_generic (merged_profile_of msg1 img1 stored) h1).symm

/-- Witness for the corrected C6 at the concrete "hello" session trace. -/
theorem anti_repetition_amended_witness :
    hello_turn2.1.message = msg_generic_reprompt ∧
    hello_turn1.1.message ≠ msg_generic_reprompt ∧
    hello_turn2.1.message ≠ hello_turn1.1.message :=
  anti_repetition_amended "hello" "hello" Option.none Option.none emptyProfile [] []
    (by decide) (by decide) (by decide)

/-! ## Branch lemmas for the complete-profile path -/

theorem clarification_filter_ne_nil (tl : String) (ms : List ScoredEntry) (h : ms ≠ []) :
    clarification_filter tl ms ≠ [] := by
  simp only [clarification_filter]
  split_ifs <;> assumption

theorem complete_turn_noclarif (tl : String) (merged : Profile) (catalog : List CatalogEntry)
    (hcl : is_clarification_turn tl = false)
    (hms : match_user_profile merged catalog ≠ [])
    (hgate : ¬(top_score_of (match_user_profile merged catalog) < 0.6 ∧
      truthyOpt merged.primary_concern = false)) :
    complete_turn tl merged catalog =
      ({ evaluate_matches (match_user_profile merged catalog) with
         user_profile := some merged,
         match_list := match_user_profile merged catalog }, merged) := by
  simp only [complete_turn]
  rw [if_neg hms, if_neg hgate, if_neg (by simp [hcl]), if_neg (by simp [hcl])]

theorem complete_turn_clarif (tl : String) (merged : Profile) (catalog : List CatalogEntry)
    (hcl : is_clarification_turn tl = true)
    (hms : match_user_profile merged catalog ≠ [])
    (hgate : ¬(top_score_of (match_user_profile merged catalog) < 0.6 ∧
      truthyOpt merged.primary_concern = false)) :
    complete_turn tl merged catalog =
      ({ evaluate_matches (clarification_filter tl (match_user_profile merged catalog)) with
         need_clarification := false,
         final_recommendation := true,
         user_profile := some merged,
         match_list := clarification_filter tl (match_user_profile merged catalog) }, merged) := by
  simp only [complete_turn]
  rw [if_neg hms, if_neg hgate, if_pos hcl, if_pos hcl,
    if_pos (clarification_filter_ne_nil tl (match_user_profile merged catalog) hms)]

/-! ## Claim C8: the low-confidence gate -/

/-- C8 counterexample: a session already storing a primary concern takes
the signal-free turn "ok" against a catalog whose top score is 0.15 < 0.6.
The claim demands a need-more-info outcome; the engine instead emits a
final recommendation, because the gate tests the merged profile's
`primary_concern` — always non-empty once the completeness check passed —
not this turn's input. -/
theorem low_confidence_counterexample :
    match_user_profile (merged_profile_of "ok" Option.none full_profile) [low_entry] =
      [{ match_score := 3/20, idx := 0, entry := low_entry }] ∧
    (3/20 : ℚ) < 6/10 ∧
    (analyze_text_input "ok").primary_concern = Option.none ∧
    normalized_concern_of (pyLower "ok") (analyze_text_input "ok").primary_concern =
      Option.none ∧
    ok_turn.1.final_recommendation = true ∧
    ok_turn.1.need_more_info = false := by
  have hms : match_user_profile (merged_profile_of "ok" Option.none full_profile) [low_entry] =
      [{ match_score := 3/20, idx := 0, entry := low_entry }] := by
    refine match_singleton _ low_entry (3/20) ?_ (by norm_num)
    have hj : hairTypeSim (merged_profile_of "ok" Option.none full_profile) low_entry = 0 := by
      unfold hairTypeSim
      rw [compute_similarity_eval (merged_profile_of "ok" Option.none full_profile).hair_type
          (tokenize low_entry.hairTypeTag)
          (by decide) (by decide) 0 2 (by decide) (by decide) (by norm_num)]
      norm_num
    have hraw : rawScore (merged_profile_of "ok" Option.none full_profile) low_entry = 3/20 := by
      unfold rawScore
      rw [hj,
        show textureInd (merged_profile_of "ok" Option.none full_profile) low_entry = 0 from rfl,
        show primaryInd (merged_profile_of "ok" Option.none full_profile) low_entry = 0 from rfl,
        show secondaryInd (merged_profile_of "ok" Option.none full_profile) low_entry = 1
          from rfl]
      norm_num
    rw [hraw, roundq3_eval (3/20) 150 (by norm_num)]
    norm_num
  have hgate : ¬(top_score_of (match_user_profile
        (merged_profile_of "ok" Option.none full_profile) [low_entry]) < 0.6 ∧
      truthyOpt (merged_profile_of "ok" Option.none full_profile).primary_concern = false) := by
    rw [show truthyOpt (merged_profile_of "ok" Option.none full_profile).primary_concern = true
      from rfl]
    simp
  have hturn : ok_turn =
      ({ evaluate_matches (match_user_profile
           (merged_profile_of "ok" Option.none full_profile) [low_entry]) with
         user_profile := some (merged_profile_of "ok" Option.none full_profile),
         match_list := match_user_profile
           (merged_profile_of "ok" Option.none full_profile) [low_entry] },
       merged_profile_of "ok" Option.none full_profile) := by
    show generate_chatbot_response "ok" Option.none full_profile [low_entry] = _
    rw [generate_complete "ok" Option.none full_profile [low_entry] (by decide)]
    exact complete_turn_noclarif (pyLower "ok") (merged_profile_of "ok" Option.none full_profile)
      [low_entry] (by decide) (by rw [hms]; simp) hgate
  refine ⟨hms, by norm_num, by decide, by decide, ?_, ?_⟩
  · rw [hturn]
    show (evaluate_matches (match_user_profile
      (merged_profile_of "ok" Option.none full_profile) [low_entry])).final_recommendation = true
    rw [hms]
    rfl
  · rw [hturn]
    show (evaluate_matches (match_user_profile
      (merged_profile_of "ok" Option.none full_profile) [low_entry])).need_more_info = false
    rw [hms]
    rfl

/-- C8 corrected: the gate's second condition reads the merged profile,
which the completeness check already guarantees a non-empty
`primary_concern`, so the low-confidence branch is unreachable; a turn
whose merged profile lacks a primary concern is already answered by the
completeness gate with a need-more-info prompt (never an error), and a
low-scoring turn with a stored concern proceeds to a recommendation or
clarification. -/
theorem low_confidence_amended (message : String) (image_keywords : Option (List String))
    (stored : Profile) (catalog : List CatalogEntry)
    (h : truthyOpt (merged_profile_of message image_keywords stored).primary_concern = false) :
    (generate_chatbot_response message image_keywords stored catalog).1.need_more_info = true ∧
    (generate_chatbot_response message image_keywords stored catalog).1.need_clarification
      = false ∧
    (generate_chatbot_response message image_keywords stored catalog).1.final_recommendation
      = false := by
  have hpf : profile_field_truthy (merged_profile_of message image_keywords stored)
      "primary_concern" = false := h
  have hmem : "primary_concern" ∈ missingOf (merged_profile_of message image_keywords stored) := by
    unfold missingOf
    refine List.mem_filter.mpr ⟨by decide, ?_⟩
    rw [hpf]
    rfl
  have hne : missingOf (merged_profile_of message image_keywords stored) ≠ [] :=
    List.ne_nil_of_mem hmem
  rw [generate_incomplete message image_keywords stored catalog hne]
  unfold incomplete_turn
  split
  · exact ⟨rfl, rfl, rfl⟩
  · exact ⟨rfl, rfl, rfl⟩

/-- Witness for the corrected C8 at a fresh session and the turn "hello". -/
theorem low_confidence_amended_witness :
    hello_turn1.1.need_more_info = true ∧
    hello_turn1.1.need_clarification = false ∧
    hello_turn1.1.final_recommendation = false :=
  low_confidence_amended "hello" Option.none emptyProfile [] (by decide)

/-! ## Claim C7: clarification replies and the hard-coded product filter -/

/-- The ranked matches of the "hydration" turn: the Dryness-tagged
HydraMax row scores 1.0, the Damage-tagged Aqua Revive row 0.75. -/
theorem hydration_match_eval :
    match_user_profile (merged_profile_of "hydration" Option.none full_profile)
      [aqua_damage_entry, hydramax_entry] =
      [{ match_score := 1, idx := 1, entry := hydramax_entry },
       { match_score := 3/4, idx := 0, entry := aqua_damage_entry }] := by
  refine match_pair_swap _ aqua_damage_entry hydramax_entry (3/4) 1 ?_ ?_
    (by norm_num) (by norm_num) (by norm_num)
  · have hj : hairTypeSim (merged_profile_of "hydration" Option.none full_profile)
        aqua_damage_entry = 1 := by
      unfold hairTypeSim
      rw [compute_similarity_eval
          (merged_profile_of "hydration" Option.none full_profile).hair_type
          (tokenize aqua_damage_entry.hairTypeTag)
          (by decide) (by decide) 1 1 (by decide) (by decide) (by norm_num)]
      norm_num
    have hraw : rawScore (merged_profile_of "hydration" Option.none full_profile)
        aqua_damage_entry = 3/4 := by
      unfold rawScore
      rw [hj,
        show textureInd (merged_profile_of "hydration" Option.none full_profile)
          aqua_damage_entry = 1 from rfl,
        show primaryInd (merged_profile_of "hydration" Option.none full_profile)
          aqua_damage_entry = 0 from rfl,
        show secondaryInd (merged_profile_of "hydration" Option.none full_profile)
          aqua_damage_entry = 1 from rfl]
      norm_num
    rw [hraw, roundq3_eval (3/4) 750 (by norm_num)]
    norm_num
  · have hj : hairTypeSim (merged_profile_of "hydration" Option.none full_profile)
        hydramax_entry = 1 := by
      unfold hairTypeSim
      rw [compute_similarity_eval
          (merged_profile_of "hydration" Option.none full_profile).hair_type
          (tokenize hydramax_entry.hairTypeTag)
          (by decide) (by decide) 1 1 (by decide) (by decide) (by norm_num)]
      norm_num
    have hraw : rawScore (merged_profile_of "hydration" Option.none full_profile)
        hydramax_entry = 1 := by
      unfold rawScore
      rw [hj,
        show textureInd (merged_profile_of "hydration" Option.none full_profile)
          hydramax_entry = 1 from rfl,
        show primaryInd (merged_profile_of "hydration" Option.none full_profile)
          hydramax_entry = 1 from rfl,
        show secondaryInd (merged_profile_of "hydration" Option.none full_profile)
          hydramax_entry = 1 from rfl]
      norm_num
    rw [hraw, roundq3_eval 1 1000 (by norm_num)]
    norm_num

/-- C7 counterexample: the clarification reply "hydration" resolves the
concern Dryness, but the engine filters the ranked matches by the
hard-coded product name "Aqua Revive", keeping the row whose concern tags
do NOT mention Dryness and dropping the ranked Dryness-tagged row — not a
filter by the resolved category's tags. -/
theorem clarification_filter_counterexample :
    hydration_turn.2.primary_concern = some "Dryness" ∧
    hydration_turn.1.final_recommendation = true ∧
    hydration_turn.1.need_clarification = false ∧
    hydration_turn.1.match_list =
      [{ match_score := 3/4, idx := 0, entry := aqua_damage_entry }] ∧
    strIn "Dryness" aqua_damage_entry.primaryConcernTag = false ∧
    strIn "Dryness" aqua_damage_entry.secondaryConcernTag = false ∧
    strIn "Dryness" hydramax_entry.primaryConcernTag = true ∧
    ({ match_score := 1, idx := 1, entry := hydramax_entry } : ScoredEntry) ∈
      match_user_profile (merged_profile_of "hydration" Option.none full_profile)
        [aqua_damage_entry, hydramax_entry] := by
  have hgate : ¬(top_score_of (match_user_profile
        (merged_profile_of "hydration" Option.none full_profile)
        [aqua_damage_entry, hydramax_entry]) < 0.6 ∧
      truthyOpt (merged_profile_of "hydration" Option.none
        full_profile).primary_concern = false) := by
    rw [show truthyOpt (merged_profile_of "hydration" Option.none
      full_profile).primary_concern = true from rfl]
    simp
  have hturn : hydration_turn =
      ({ evaluate_matches (clarification_filter (pyLower "hydration")
           (match_user_profile (merged_profile_of "hydration" Option.none full_profile)
             [aqua_damage_entry, hydramax_entry])) with
         need_clarification := false,
         final_recommendation := true,
         user_profile := some (merged_profile_of "hydration" Option.none full_profile),
         match_list := clarification_filter (pyLower "hydration")
           (match_user_profile (merged_profile_of "hydration" Option.none full_profile)
             [aqua_damage_entry, hydramax_entry]) },
       merged_profile_of "hydration" Option.none full_profile) := by
    show generate_chatbot_response "hydration" Option.none full_profile
      [aqua_damage_entry, hydramax_entry] = _
    rw [generate_complete "hydration" Option.none full_profile
      [aqua_damage_entry, hydramax_entry] (by decide)]
    exact complete_turn_clarif (pyLower "hydration")
      (merged_profile_of "hydration" Option.none full_profile)
      [aqua_damage_entry, hydramax_entry] (by decide)
      (by rw [hydration_match_eval]; simp) hgate
  refine ⟨by rw [hturn]; rfl, ?_, ?_, ?_, by decide, by decide, by decide, ?_⟩
  · rw [hturn]
  · rw [hturn]
  · rw [hturn]
    show clarification_filter (pyLower "hydration")
      (match_user_profile (merged_profile_of "hydration" Option.none full_profile)
        [aqua_damage_entry, hydramax_entry]) = _
    rw [hydration_match_eval]
    rfl
  · rw [hydration_match_eval]
    exact List.mem_cons_self _ _

theorem evaluate_matches_need_more_info (ms : List ScoredEntry) :
    (evaluate_matches ms).need_more_info = false := by
  simp only [evaluate_matches]
  split_ifs <;> rfl

/-- C7 corrected: on a clarification-reply turn (the raw text mentions
"hydration", "repair" or "nourishment"; the analyzer never sets
`is_clarification`) with a complete profile and non-empty matches, the
engine forces `need_clarification = false` and `final_recommendation =
true` and replaces the matches by `clarification_filter`: a filter by the
hard-coded product names "Aqua Revive" (hydration/moisturizing) and
"Total Repair" (repair), or by a case-sensitive "Nutrition" tag test
(nourishment/nutrition), each falling back to the unfiltered list when it
would empty it; a "hydration" turn also overrides the stored
`primary_concern` with "Dryness". -/
theorem clarification_turn_amended (message : String) (image_keywords : Option (List String))
    (stored : Profile) (catalog : List CatalogEntry)
    (hcl : is_clarification_turn (pyLower message) = true)
    (hmiss : missingOf (merged_profile_of message image_keywords stored) = [])
    (hms : match_user_profile (merged_profile_of message image_keywords stored) catalog ≠ []) :
    (generate_chatbot_response message image_keywords stored catalog).1.final_recommendation
      = true ∧
    (generate_chatbot_response message image_keywords stored catalog).1.need_clarification
      = false ∧
    (generate_chatbot_response message image_keywords stored catalog).1.need_more_info = false ∧
    (generate_chatbot_response message image_keywords stored catalog).1.match_list =
      clarification_filter (pyLower message)
        (match_user_profile (merged_profile_of message image_keywords stored) catalog) ∧
    (strIn "hydration" (pyLower message) = true →
      (merged_profile_of message image_keywords stored).primary_concern = some "Dryness") := by
  have hpt : profile_field_truthy (merged_profile_of message image_keywords stored)
      "primary_concern" = true := by
    have := List.filter_eq_nil_iff.mp hmiss "primary_concern" (by decide)
    simpa using this
  have hgate : ¬(top_score_of (match_user_profile
        (merged_profile_of message image_keywords stored) catalog) < 0.6 ∧
      truthyOpt (merged_profile_of message image_keywords stored).primary_concern = false) := by
    rw [show truthyOpt (merged_profile_of message image_keywords stored).primary_concern =
      profile_field_truthy (merged_profile_of message image_keywords stored) "primary_concern"
      from rfl, hpt]
    simp
  rw [generate_complete message image_keywords stored catalog hmiss,
    complete_turn_clarif (pyLower message) (merged_profile_of message image_keywords stored)
      catalog hcl hms hgate]
  refine ⟨rfl, rfl, ?_, rfl, ?_⟩
  · exact evaluate_matches_need_more_info _
  · intro hhyd
    show mergeScalar stored.primary_concern
      (normalized_concern_of (pyLower message)
        (analyze_text_input message).primary_concern) = some "Dryness"
    unfold normalized_concern_of
    rw [if_pos hcl, if_pos (by simp [hhyd])]
    rfl

/-- Witness for the corrected C7 at the concrete "hydration" turn. -/
theorem clarification_turn_amended_witness :
    hydration_turn.1.final_recommendation = true ∧
    hydration_turn.1.need_clarification = false ∧
    (merged_profile_of "hydration" Option.none full_profile).primary_concern =
      some "Dryness" :=
  ⟨(clarification_turn_amended "hydration" Option.none full_profile
      [aqua_damage_entry, hydramax_entry] (by decide) (by decide)
      (by rw [hydration_match_eval]; simp)).1,
   (clarification_turn_amended "hydration" Option.none full_profile
      [aqua_damage_entry, hydramax_entry] (by decide) (by decide)
      (by rw [hydration_match_eval]; simp)).2.1,
   (clarification_turn_amended "hydration" Option.none full_profile
      [aqua_damage_entry, hydramax_entry] (by decide) (by decide)
      (by rw [hydration_match_eval]; simp)).2.2.2.2 (by decide)⟩

/-! ## Claim C5: determinism, stable descending order, top three -/

theorem sorted_rankedResults (p : Profile) (catalog : List CatalogEntry) :
    (rankedResults p catalog).Sorted rankedBefore :=
  List.sorted_insertionSort rankedBefore (scoredResults p catalog)

theorem scored_map_idx (p : Profile) (catalog : List CatalogEntry) :
    (scoredResults p catalog).map ScoredEntry.idx = List.range catalog.length := by
  unfold scoredResults
  rw [List.map_map]
  have h : (ScoredEntry.idx ∘ fun ie : ℕ × CatalogEntry =>
      ({ match_score := roundq3 (rawScore p ie.2), idx := ie.1, entry := ie.2 } : ScoredEntry))
      = Prod.fst := rfl
  rw [h, List.enum_map_fst]

theorem nodup_idx_ranked (p : Profile) (catalog : List CatalogEntry) :
    ((rankedResults p catalog).map ScoredEntry.idx).Nodup := by
  have hperm : List.Perm ((rankedResults p catalog).map ScoredEntry.idx)
      ((scoredResults p catalog).map ScoredEntry.idx) :=
    (List.perm_insertionSort rankedBefore (scoredResults p catalog)).map ScoredEntry.idx
  rw [hperm.nodup_iff, scored_map_idx]
  exact List.nodup_range catalog.length

theorem match_sublist_ranked (p : Profile) (catalog : List CatalogEntry) :
    (match_user_profile p catalog).Sublist (rankedResults p catalog) :=
  (List.filter_sublist _).trans (List.take_sublist 3 _)

theorem take_filter_of_sorted :
    ∀ (l : List ScoredEntry), l.Pairwise rankedBefore → ∀ n : ℕ,
      (l.take n).filter (fun m => 0 < m.match_score) =
      ((l.filter (fun m => 0 < m.match_score)).take n) := by
  intro l
  induction l with
  | nil => intro _ n; simp
  | cons a tl ih =>
    intro hp n
    cases n with
    | zero => simp
    | succ m =>
      rw [List.take_succ_cons]
      by_cases hpos : (0 : ℚ) < a.match_score
      · rw [List.filter_cons_of_pos (by simpa using hpos),
            List.filter_cons_of_pos (by simpa using hpos), List.take_succ_cons]
        rw [ih (List.Pairwise.of_cons hp) m]
      · have hall : ∀ b ∈ tl, ¬ (0 : ℚ) < b.match_score := by
          intro b hb
          have hr := (List.pairwise_cons.mp hp).1 b hb
          rcases hr with hlt | ⟨heq, _⟩
          · intro hc; exact hpos (lt_trans hc hlt)
          · intro hc; exact hpos (heq ▸ hc)
        have htl : tl.filter (fun m => 0 < m.match_score) = [] := by
          rw [List.filter_eq_nil_iff]
          intro b hb
          simpa using hall b hb
        have htake : (tl.take m).filter (fun m => 0 < m.match_score) = [] := by
          rw [List.filter_eq_nil_iff]
          intro b hb
          simpa using hall b (List.mem_of_mem_take hb)
        rw [List.filter_cons_of_neg (by simpa using hpos),
            List.filter_cons_of_neg (by simpa using hpos), htl, htake]
        simp

/-- C5: `match_user_profile` is deterministic — identical profile and
catalog always give the identical ordered output — the output is sorted by
strictly descending score with ties keeping the original catalog order
(Python's stable sort, made explicit by the recorded index), it has at
most three entries, each with a score above zero, its length is exactly
`min 3 (number of positive-score rows)` (fewer than three when fewer
qualify), and every returned row is the catalog row at its recorded
position. -/
theorem match_ranking_properties (p : Profile) (catalog : List CatalogEntry) :
    (∀ (p2 : Profile) (c2 : List CatalogEntry), p = p2 → catalog = c2 →
      match_user_profile p catalog = match_user_profile p2 c2) ∧
    (match_user_profile p catalog).Pairwise (fun a b =>
      b.match_score < a.match_score ∨ (a.match_score = b.match_score ∧ a.idx < b.idx)) ∧
    (match_user_profile p catalog).length ≤ 3 ∧
    (∀ m ∈ match_user_profile p catalog, 0 < m.match_score) ∧
    (match_user_profile p catalog).length =
      min 3 ((scoredResults p catalog).countP (fun m => 0 < m.match_score)) ∧
    (∀ m ∈ match_user_profile p catalog, catalog.get? m.idx = some m.entry) := by
  refine ⟨?_, ?_, ?_, ?_, ?_, ?_⟩
  · intro p2 c2 hp hc
    rw [hp, hc]
  · have hpair : (match_user_profile p catalog).Pairwise rankedBefore :=
      (sorted_rankedResults p catalog).sublist (match_sublist_ranked p catalog)
    have hnodup : ((match_user_profile p catalog).map ScoredEntry.idx).Nodup :=
      (nodup_idx_ranked p catalog).sublist ((match_sublist_ranked p catalog).map ScoredEntry.idx)
    have hpne : (match_user_profile p catalog).Pairwise (fun a b => a.idx ≠ b.idx) :=
      List.pairwise_map.mp hnodup
    refine (hpair.and hpne).imp ?_
    rintro a b ⟨hr, hne⟩
    rcases hr with hlt | ⟨heq, hle⟩
    · exact Or.inl hlt
    · exact Or.inr ⟨heq, lt_of_le_of_ne hle hne⟩
  · exact le_trans (List.length_filter_le _ _) (List.length_take_le 3 _)
  · intro m hm
    have := List.mem_filter.mp hm
    simpa using this.2
  · rw [show match_user_profile p catalog =
        ((rankedResults p catalog).filter (fun m => 0 < m.match_score)).take 3 from
      take_filter_of_sorted (rankedResults p catalog) (sorted_rankedResults p catalog) 3]
    rw [List.length_take, ← List.countP_eq_length_filter]
    congr 1
    exact (List.perm_insertionSort rankedBefore (scoredResults p catalog)).countP_eq _
  · intro m hm
    have hm1 : m ∈ rankedResults p catalog := (match_sublist_ranked p catalog).subset hm
    have hm2 : m ∈ scoredResults p catalog := by
      unfold rankedResults at hm1
      exact (List.mem_insertionSort rankedBefore).mp hm1
    unfold scoredResults at hm2
    rcases List.mem_map.mp hm2 with ⟨ie, hie, rfl⟩
    have hq := List.mem_enum_iff_getElem?.mp hie
    rw [List.get?_eq_getElem?]
    exact hq

/-- Witness for C5's determinism conjunct at the worked example's inputs. -/
theorem match_ranking_properties_witness :
    match_user_profile example_profile [aqua_revive_entry] =
      match_user_profile example_profile [aqua_revive_entry] :=
  (match_ranking_properties example_profile [aqua_revive_entry]).1
    example_profile [aqua_revive_entry] rfl rfl

/-! ## Claim C1: exactly one outcome flag per turn -/

theorem match_entry_mem (p : Profile) (catalog : List CatalogEntry) (m : ScoredEntry)
    (hm : m ∈ match_user_profile p catalog) : m.entry ∈ catalog := by
  have hm1 : m ∈ rankedResults p catalog := (match_sublist_ranked p catalog).subset hm
  have hm2 : m ∈ scoredResults p catalog := by
    unfold rankedResults at hm1
    exact (List.mem_insertionSort rankedBefore).mp hm1
  unfold scoredResults at hm2
  rcases List.mem_map.mp hm2 with ⟨ie, hie, rfl⟩
  have hq := List.mem_enum_iff_getElem?.mp hie
  exact List.get?_mem (by rw [List.get?_eq_getElem?]; exact hq)

theorem evaluate_matches_flags (ms : List ScoredEntry) (hms : ms ≠ [])
    (hprod : ∃ m ∈ ms, m.entry.product ≠ "") :
    ((evaluate_matches ms).need_clarification = true ∧
     (evaluate_matches ms).final_recommendation = false) ∨
    ((evaluate_matches ms).need_clarification = false ∧
     (evaluate_matches ms).final_recommendation = true) := by
  simp only [evaluate_matches]
  rw [if_neg hms]
  have htp : dedupFirst ((ms.map (fun m => m.entry.product)).filter (fun s => s ≠ "")) ≠ [] := by
    rcases hprod with ⟨m, hm, hp⟩
    have h1 : m.entry.product ∈ (ms.map (fun m => m.entry.product)).filter (fun s => s ≠ "") :=
      List.mem_filter.mpr ⟨List.mem_map_of_mem _ hm, by simpa using hp⟩
    exact List.ne_nil_of_mem (mem_dedupFirst.mpr h1)
  rw [if_neg htp]
  split_ifs
  · exact Or.inr ⟨rfl, rfl⟩
  · exact Or.inl ⟨rfl, rfl⟩

/-- C1: every turn's result has exactly one of `need_more_info`,
`need_clarification`, `final_recommendation` set true and the other two
false (or absent, which reads the same), provided every catalog row has a
non-empty product name (as the dataset's rows do; with an all-empty
`Product` column `evaluate_matches` would return a message with no flag
at all). -/
theorem one_outcome_flag (message : String) (image_keywords : Option (List String))
    (stored : Profile) (catalog : List CatalogEntry)
    (hcat : ∀ e ∈ catalog, e.product ≠ "") :
    exactlyOneFlag (generate_chatbot_response message image_keywords stored catalog).1 := by
  by_cases hmiss : missingOf (merged_profile_of message image_keywords stored) = []
  case neg =>
    rw [generate_incomplete message image_keywords stored catalog hmiss]
    unfold incomplete_turn
    split
    · exact Or.inl ⟨rfl, rfl, rfl⟩
    · exact Or.inl ⟨rfl, rfl, rfl⟩
  case pos =>
    rw [generate_complete message image_keywords stored catalog hmiss]
    by_cases hms : match_user_profile (merged_profile_of message image_keywords stored)
        catalog = []
    · simp only [complete_turn]
      rw [if_pos hms]
      exact Or.inl ⟨rfl, rfl, rfl⟩
    · by_cases hgate : top_score_of (match_user_profile
          (merged_profile_of message image_keywords stored) catalog) < 0.6 ∧
        truthyOpt (merged_profile_of message image_keywords stored).primary_concern = false
      · simp only [complete_turn]
        rw [if_neg hms, if_pos hgate]
        exact Or.inl ⟨rfl, rfl, rfl⟩
      · by_cases hcl : is_clarification_turn (pyLower message) = true
        · rw [complete_turn_clarif (pyLower message)
            (merged_profile_of message image_keywords stored) catalog hcl hms hgate]
          exact Or.inr (Or.inr ⟨evaluate_matches_need_more_info _, rfl, rfl⟩)
        · rw [complete_turn_noclarif (pyLower message)
            (merged_profile_of message image_keywords stored) catalog
            (by simpa using hcl) hms hgate]
          have hprod : ∃ m ∈ match_user_profile
              (merged_profile_of message image_keywords stored) catalog,
              m.entry.product ≠ "" := by
            rcases List.exists_mem_of_ne_nil _ hms with ⟨m, hm⟩
            exact ⟨m, hm, hcat m.entry (match_entry_mem _ _ _ hm)⟩
          rcases evaluate_matches_flags _ hms hprod with ⟨h1, h2⟩ | ⟨h1, h2⟩
          · exact Or.inr (Or.inl ⟨evaluate_matches_need_more_info _, h1, h2⟩)
          · exact Or.inr (Or.inr ⟨evaluate_matches_need_more_info _, h1, h2⟩)

/-- Witness for C1 at a fresh session, an uninformative message and a
one-row catalog with a named product. -/
theorem one_outcome_flag_witness :
    exactlyOneFlag (generate_chatbot_response "hello" Option.none emptyProfile [low_entry]).1 :=
  one_outcome_flag "hello" Option.none emptyProfile [low_entry] (by decide)
